import Mathlib

/-!
Verification of the HubbClips-Pro media-processing orchestration layer.

The development shallowly embeds the relevant parts of `src/main.js`
(FFmpegConfig, VideoProcessor, AudioProcessor) and of the preload bridge
(`src/unnamed/part_000`: eventAPI, encodingAPI, validationAPI, processMedia)
as executable Lean definitions, and proves or refutes the specified
properties about them.

Numbers that are JavaScript `number`s in the source are modelled as `ℚ`
(the values exercised here are exact in binary floating point, so rational
arithmetic agrees with the JS evaluation on every input used).
-/

/-! ## Progress events (`VideoProcessor.executeCommand`, main.js 213-244) -/

/-- Stages of an `operation-progress` event, the vocabulary used by
`sendProgress` plus the `cancelled` stage named by the specification. -/
inductive Stage
  | started
  | processing
  | completed
  | error
  | cancelled
deriving DecidableEq, Repr

/-- One emitted `operation-progress` event; only the fields the claims
inspect (stage and percent) are modelled.  Events whose stage is not
`processing` carry no percent in the source; they are given percent 0 here,
matching the `data.percent || 0` defaulting applied by the renderer bridge. -/
structure ProgressEvent where
  stage : Stage
  percent : ℚ
deriving DecidableEq, Repr

/-- One run of the external ffmpeg engine as fluent-ffmpeg reports it: a
sequence of `progress` callbacks (each with an optional `percent` field,
`none` standing for JS `undefined`), followed by exactly one of `end`
(success = true) or `error` (success = false). -/
structure EngineRun where
  reports : List (Option ℚ)
  success : Bool

/-- Percent handling in the `progress` callback of `executeCommand`
(main.js 222): `Math.max(0, Math.min(100, progress.percent || 0))`.
A missing percent and a zero percent both collapse to 0 via `|| 0`. -/
def clampPercent (r : Option ℚ) : ℚ :=
  let p : ℚ := match r with
    | none => 0
    | some v => if v = 0 then 0 else v
  max 0 (min 100 p)

/-- The full event stream `executeCommand` emits for one engine run
(main.js 216-242): a `started` event from the `start` callback, one
`processing` event per engine progress report (with the clamped percent,
passed through unchanged otherwise), and one terminal event: `completed`
on `end`, `error` on `error`.  No retention of the previous percent is
performed anywhere in the handler. -/
def executeCommandEvents (run : EngineRun) : List ProgressEvent :=
  ⟨Stage.started, 0⟩ ::
    (run.reports.map fun r => ⟨Stage.processing, clampPercent r⟩) ++
    [if run.success then ⟨Stage.completed, 0⟩ else ⟨Stage.error, 0⟩]

/-- Whether a single event satisfies the claimed percent range: events that
are not `processing` are unconstrained. -/
def percentOk (e : ProgressEvent) : Bool :=
  (e.stage != Stage.processing) || (decide (0 ≤ e.percent) && decide (e.percent ≤ 100))

/-- All `processing` events of a stream have percent in [0,100]. -/
def percentsInRange (evs : List ProgressEvent) : Bool :=
  evs.all percentOk

/-- A stage is terminal when it is `completed`, `error` or `cancelled`. -/
def isTerminal : Stage → Bool
  | Stage.completed => true
  | Stage.error => true
  | Stage.cancelled => true
  | _ => false

/-- Number of terminal events in a stream. -/
def countTerminal (evs : List ProgressEvent) : ℕ :=
  evs.countP fun e => isTerminal e.stage

/-- The percents of the `processing` events of a stream, in emission order. -/
def processingPercents (evs : List ProgressEvent) : List ℚ :=
  (evs.filter fun e => e.stage == Stage.processing).map fun e => e.percent

/-- A list of rationals is non-decreasing (Boolean form). -/
def nonDecreasingB : List ℚ → Bool
  | [] => true
  | [_] => true
  | a :: b :: t => decide (a ≤ b) && nonDecreasingB (b :: t)

/-- A concrete engine run whose second progress report is lower than the
first: the engine regresses from 50 to 30 and terminates cleanly. -/
def regressingRun : EngineRun :=
  ⟨[some 50, some 30], true⟩

/-! ## Filter-graph builder (`VideoProcessor.buildMergeFilter`, main.js 149-175) -/

/-- A segment as consumed by `mergeVideos`/`buildMergeFilter`: a file path
and the duration field read by the transition branch. -/
structure Segment where
  path : String
  duration : ℚ
deriving DecidableEq, Repr

/-- A transition entry; only its `duration` field is read by the builder.
Duration 0 models a falsy duration (JS `|| 1` turns it into the default). -/
structure Transition where
  duration : ℚ
deriving DecidableEq, Repr

/-- `transitions[i]?.duration || 1` (main.js 161): a missing entry and a
falsy (zero) duration both fall back to the default duration 1. -/
def transDuration (transitions : List Transition) (i : ℕ) : ℚ :=
  match transitions.get? i with
  | some t => if t.duration = 0 then 1 else t.duration
  | none => 1

/-- Fallback segment value for out-of-range indexing. -/
def dummySegment : Segment := ⟨"", 0⟩

/-- `segments[i].duration` (main.js 162); the loop only reads indices
`i < segments.length - 1`, which are always in range. -/
def segDurationAt (segments : List Segment) (i : ℕ) : ℚ :=
  (segments.getD i dummySegment).duration

/-- One `xfade` video node of the transition branch, carrying the pieces the
source interpolates into `[L][R]xfade=transition=fade:duration=D:offset=O[out]`. -/
structure XfadeNode where
  leftLabel : String
  rightLabel : String
  duration : ℚ
  offset : ℚ
  outLabel : String
deriving DecidableEq, Repr

/-- One `acrossfade` audio node, as interpolated into `[L][R]acrossfade=d=D[out]`. -/
structure AcrossfadeNode where
  leftLabel : String
  rightLabel : String
  duration : ℚ
  outLabel : String
deriving DecidableEq, Repr

/-- A node of the built filter graph: the single `concat` node of the
no-transition branch (input pair indices, stream count `n`, the `v=1:a=1`
flags and its output labels), or an `xfade`/`acrossfade` node of the
transition branch. -/
inductive FilterNode
  | concat (inputPairs : List ℕ) (n : ℕ) (v a : ℕ) (outLabels : List String)
  | video (node : XfadeNode)
  | audio (node : AcrossfadeNode)
deriving DecidableEq, Repr

/-- The complete filter-graph description `buildMergeFilter` returns: its
nodes in emission order, plus the trailing bare label pair the transition
branch appends after the last node (`[v{last}][a{last}]`, main.js 174). -/
structure FilterGraph where
  nodes : List FilterNode
  trailingLabels : List String
deriving DecidableEq, Repr

/-- The video node built at loop index `i` (main.js 160-170): left input is
`[0:v]` for the first node and the previous node's output `[v{i-1}]`
otherwise; right input is `[{i+1}:v]`; `offset = segments[i].duration -
duration` — the duration of segment `i` alone, not a cumulative sum. -/
def videoNodeAt (segments : List Segment) (transitions : List Transition) (i : ℕ) : XfadeNode :=
  let d := transDuration transitions i
  ⟨if i = 0 then "0:v" else "v" ++ toString (i - 1),
   toString (i + 1) ++ ":v",
   d,
   segDurationAt segments i - d,
   "v" ++ toString i⟩

/-- The audio node built at loop index `i` (main.js 166/169). -/
def audioNodeAt (transitions : List Transition) (i : ℕ) : AcrossfadeNode :=
  ⟨if i = 0 then "0:a" else "a" ++ toString (i - 1),
   toString (i + 1) ++ ":a",
   transDuration transitions i,
   "a" ++ toString i⟩

/-- The chain of video crossfade nodes: the loop `for i in 0 .. len-2`. -/
def xfadeChain (segments : List Segment) (transitions : List Transition) : List XfadeNode :=
  (List.range (segments.length - 1)).map (videoNodeAt segments transitions)

/-- The chain of audio crossfade nodes built by the same loop. -/
def acrossfadeChain (segments : List Segment) (transitions : List Transition) : List AcrossfadeNode :=
  (List.range (segments.length - 1)).map (audioNodeAt transitions)

/-- `VideoProcessor.buildMergeFilter` (main.js 150-175).  With an empty
transitions list it emits every input's `[i:v][i:a]` pair in order followed
by one `concat=n=N:v=1:a=1[outv][outa]` node; otherwise it emits the video
crossfade chain, then the audio crossfade chain, then the trailing label
pair `[v{N-2}][a{N-2}]`.  The function is total: no input is rejected. -/
def buildMergeFilter (segments : List Segment) (transitions : List Transition) : FilterGraph :=
  if transitions.length = 0 then
    ⟨[FilterNode.concat (List.range segments.length) segments.length 1 1 ["outv", "outa"]], []⟩
  else
    ⟨(xfadeChain segments transitions).map FilterNode.video ++
       (acrossfadeChain segments transitions).map FilterNode.audio,
     ["v" ++ toString (segments.length - 2), "a" ++ toString (segments.length - 2)]⟩

/-- Modelled from the spec's words (for comparison only): the time offset
the specification claims for the `i`-th crossfade — the cumulative duration
of segments up to `i` minus the transition's overlap duration. -/
def specCumulativeOffset (segments : List Segment) (transitions : List Transition) (i : ℕ) : ℚ :=
  ((segments.take (i + 1)).map Segment.duration).sum - transDuration transitions i

/-- Fallback crossfade node for out-of-range indexing. -/
def dummyXfade : XfadeNode := ⟨"", "", 0, 0, ""⟩

/-- Three concrete segments of durations 10, 20 and 30. -/
def exSegments : List Segment := [⟨"a.mp4", 10⟩, ⟨"b.mp4", 20⟩, ⟨"c.mp4", 30⟩]

/-- A matching transition list (length 2 = N - 1), both of duration 1. -/
def exTransitions : List Transition := [⟨1⟩, ⟨1⟩]

/-- A mismatched non-empty transition list (length 1 ≠ N - 1 = 2). -/
def exShortTransitions : List Transition := [⟨2⟩]

/-! ## Quality presets (`FFmpegConfig.getQualityPresets`, main.js 17-25;
`VideoProcessor.getOutputSettings`, main.js 178-211;
`AudioProcessor.extractAudio`, main.js 300-328) -/

/-- A quality preset value: the four encode presets carry `{crf, preset,
bitrate}`, the `copy` preset carries only `{codec: 'copy'}`. -/
inductive QualityPreset
  | encode (crf : ℕ) (preset : String) (bitrate : String)
  | copyCodec
deriving DecidableEq, Repr

/-- `FFmpegConfig.getQualityPresets()[name]`: the closed preset map; any
other name yields `none` (JS `undefined`). -/
def getQualityPresets (name : String) : Option QualityPreset :=
  if name = "ultra" then some (QualityPreset.encode 18 "slow" "12M")
  else if name = "high" then some (QualityPreset.encode 20 "medium" "8M")
  else if name = "medium" then some (QualityPreset.encode 23 "medium" "5M")
  else if name = "fast" then some (QualityPreset.encode 28 "fast" "3M")
  else if name = "copy" then some QualityPreset.copyCodec
  else none

/-- The `settings` object passed to `mergeVideos`; `none` models an absent
(undefined, hence falsy) field, defaulted by `||` in the source. -/
structure MergeSettings where
  quality : Option String
  resolution : Option String
  bitrate : Option ℚ
deriving Repr

/-- The resolution map of `getOutputSettings` (main.js 183-188). -/
def resolutionMap (r : String) : Option String :=
  if r = "4K" then some "3840x2160"
  else if r = "1080p" then some "1920x1080"
  else if r = "720p" then some "1280x720"
  else if r = "480p" then some "854x480"
  else none

/-- Rendering of a JS number into a template string; on the integral values
exercised by the claims this agrees with JS number formatting. -/
def numToStr (q : ℚ) : String :=
  if q.den = 1 then toString q.num else toString q

/-- `VideoProcessor.getOutputSettings` (main.js 178-211).  An unknown
quality name makes the JS code read `.preset` of `undefined` and throw a
TypeError (modelled as `Except.error`); the `copy` preset has no `crf`
field, so `.crf.toString()` throws likewise.  There is no ValidationError
path. -/
def getOutputSettings (settings : MergeSettings) : Except String (List String) :=
  let quality := settings.quality.getD "high"
  let resolution := settings.resolution.getD "1080p"
  let bitrate := settings.bitrate.getD 8
  match getQualityPresets quality with
  | some (QualityPreset.encode crf preset _) =>
      let options := ["-c:v", "libx264", "-c:a", "aac", "-b:a", "192k",
        "-preset", preset, "-crf", toString crf, "-movflags", "+faststart",
        "-pix_fmt", "yuv420p"]
      let options := match resolutionMap resolution with
        | some dims => options ++ ["-s", dims]
        | none => options
      Except.ok (options ++
        ["-maxrate", numToStr (bitrate * (3 / 2)) ++ "M",
         "-bufsize", numToStr (bitrate * 2) ++ "M"])
  | some QualityPreset.copyCodec =>
      Except.error "TypeError: Cannot read properties of undefined"
  | none =>
      Except.error "TypeError: Cannot read properties of undefined"

/-- The audio quality map of `AudioProcessor.extractAudio` (main.js 307-311):
(bitrate, sampleRate) per name. -/
def audioSettings (quality : String) : Option (String × String) :=
  if quality = "high" then some ("320k", "48000")
  else if quality = "medium" then some ("192k", "44100")
  else if quality = "low" then some ("128k", "44100")
  else none

/-- `audioSettings[quality] || audioSettings.medium` (main.js 313): an
unknown quality name silently falls back to the medium settings. -/
def resolvedAudioSettings (quality : String) : String × String :=
  (audioSettings quality).getD ("192k", "44100")

/-! ## Trim validation (`validationAPI` and `processMedia.trim`,
part_000 313-459) -/

/-- The options object handed to `processMedia.trim`, after
`sanitizeOptions` (which is the identity on numeric times); `none` models an
absent field. -/
structure TrimOptions where
  inputPath : Option String
  startTime : ℚ
  endTime : ℚ
  segmentId : Option String
deriving DecidableEq, Repr

/-- `validationAPI.validateProcessingOptions(options, 'trim')`
(part_000 338-347): the accumulated error list. -/
def validateTrimOptions (o : TrimOptions) : List String :=
  (if o.inputPath.isNone then ["Input path required"] else []) ++
  (if o.startTime < 0 then ["Valid start time required"] else []) ++
  (if o.endTime ≤ o.startTime then ["End time must be greater than start time"] else [])

/-- The supported extension list of `validationAPI.validateFilePath`
(part_000 320-324). -/
def validExtensions : List String :=
  [".mp4", ".avi", ".mov", ".mkv", ".webm", ".flv",
   ".mp3", ".wav", ".aac", ".m4a", ".flac", ".ogg",
   ".jpg", ".jpeg", ".png", ".bmp", ".tiff", ".webp"]

/-- Node's `path.extname`: the suffix of the name starting at its last dot
(the dotfile special case is irrelevant to the inputs considered here). -/
def jsExtname (s : String) : String :=
  let cs := s.toList
  if cs.contains '.' then
    String.mk ('.' :: (cs.reverse.takeWhile (fun c => c != '.')).reverse)
  else ""

/-- `validationAPI.validateFilePath` (part_000 315-332). -/
def validateFilePath (p : Option String) : Except String Unit :=
  match p with
  | none => Except.error "Invalid file path"
  | some s =>
      if s = "" then Except.error "Invalid file path"
      else
        let ext := (jsExtname s).toLower
        if validExtensions.contains ext then Except.ok ()
        else Except.error ("Unsupported file format: " ++ ext)

/-- The observable outcome of a renderer-side trim request: either a
synchronous rejection (a thrown `Error`, before any IPC call), or the
`ipcRenderer.invoke("trim-video-segment", …)` call that makes the main
process spawn the ffmpeg subprocess. -/
inductive TrimOutcome
  | rejected (message : String)
  | invoked (options : TrimOptions)
deriving DecidableEq, Repr

/-- `mediaAPI.trimVideoSegment` (part_000 35-48): rejects when a required
key is missing, otherwise performs the IPC invoke. -/
def trimVideoSegment (o : TrimOptions) : TrimOutcome :=
  if o.inputPath.isNone ∨ o.segmentId.isNone then
    TrimOutcome.rejected "Missing required parameters"
  else TrimOutcome.invoked o

/-- `processMedia.trim` (part_000 445-459): validate the options, then the
file path, and only then delegate to `mediaAPI.trimVideoSegment`. -/
def processMediaTrim (o : TrimOptions) : TrimOutcome :=
  let validation := validateTrimOptions o
  if validation.isEmpty then
    match validateFilePath o.inputPath with
    | Except.error e => TrimOutcome.rejected e
    | Except.ok _ => trimVideoSegment o
  else
    TrimOutcome.rejected ("Validation failed: " ++ String.intercalate ", " validation)

/-- Whether an outcome reaches the subprocess-spawning IPC call. -/
def spawnsProcess : TrimOutcome → Bool
  | TrimOutcome.invoked _ => true
  | TrimOutcome.rejected _ => false

/-! ## Single-segment merge (`VideoProcessor.mergeVideos` 82-117 and
`handleSingleSegment` 247-255, main.js) -/

/-- A flat model of the file system: an association list from path to file
content. -/
abbrev FS := List (String × String)

/-- Content of the file at a path, if it exists. -/
def fsLookup : FS → String → Option String
  | [], _ => none
  | (q, c) :: rest, p => if q = p then some c else fsLookup rest p

/-- Write (create or overwrite) the file at a path. -/
def fsSet (fs : FS) (p c : String) : FS :=
  (p, c) :: fs.filter (fun e => e.1 != p)

/-- `fs.unlinkSync`: remove the file at a path. -/
def fsRemove (fs : FS) (p : String) : FS :=
  fs.filter (fun e => e.1 != p)

/-- The resolution value of a successful single-segment merge
(`{success: true, outputPath}`). -/
structure CopyResult where
  success : Bool
  outputPath : String
deriving DecidableEq, Repr

/-- `VideoProcessor.handleSingleSegment` (main.js 247-255):
`copyFileSync(input, output)` (throws if the input does not exist), then
`unlinkSync(input)`, then resolve `{success: true, outputPath}`. -/
def handleSingleSegment (fs : FS) (inputPath outputPath : String) :
    FS × Except String CopyResult :=
  match fsLookup fs inputPath with
  | none => (fs, Except.error "ENOENT: no such file or directory")
  | some c =>
      let fs1 := fsSet fs outputPath c
      let fs2 := fsRemove fs1 inputPath
      (fs2, Except.ok ⟨true, outputPath⟩)

/-- The synchronous dispatch of `mergeVideos` (main.js 85-98): reject an
empty segment list, hand a single segment to `handleSingleSegment`, and
otherwise build the complex filter and re-encode. -/
inductive MergePlan
  | rejectEmpty
  | singleCopy (inputPath outputPath : String)
  | encode (filterComplex : FilterGraph) (outputPath : String)
deriving DecidableEq, Repr

/-- Which of the three `mergeVideos` paths a request takes. -/
def mergePlan (segments : List Segment) (transitions : List Transition)
    (outputPath : String) : MergePlan :=
  if segments.length = 0 then MergePlan.rejectEmpty
  else if segments.length = 1 then
    MergePlan.singleCopy (segments.getD 0 dummySegment).path outputPath
  else MergePlan.encode (buildMergeFilter segments transitions) outputPath

/-! ## File-size estimator (`encodingAPI.estimateFileSize`, part_000 299-309) -/

/-- `Math.round`: round half toward positive infinity, as in JS. -/
def jsRound (q : ℚ) : ℤ := ⌊q + 1 / 2⌋

/-- `x.toFixed(2)` for the non-negative exact values used here: round
`x * 100` to the nearest integer and print with two decimals. -/
def toFixed2 (q : ℚ) : String :=
  let n : ℤ := jsRound (q * 100)
  let ip := n / 100
  let fp := (n % 100).natAbs
  toString ip ++ "." ++ (if fp < 10 then "0" else "") ++ toString fp

/-- The `{mb, gb, formatted}` value `estimateFileSize` returns. -/
structure SizeEstimate where
  mb : ℤ
  gb : String
  formatted : String
deriving DecidableEq, Repr

/-- `encodingAPI.estimateFileSize(duration, settings)` (part_000 299-309):
`bitrate = parseInt(settings.bitrate) || 5` (a zero or unparsable bitrate
falls back to 5), `estimatedMB = duration * bitrate * 60 / 8`, and the
formatted string switches to GB only above 1024 MB. -/
def estimateFileSize (duration : ℚ) (bitrateRaw : ℤ) : SizeEstimate :=
  let bitrate : ℚ := if bitrateRaw = 0 then 5 else (bitrateRaw : ℚ)
  let estimatedMB := duration * bitrate * 60 / 8
  ⟨jsRound estimatedMB,
   toFixed2 (estimatedMB / 1024),
   if estimatedMB > 1024 then toFixed2 (estimatedMB / 1024) ++ " GB"
   else toString (jsRound estimatedMB) ++ " MB"⟩

/-! ## Progress aggregation (`eventAPI.createProgressTracker`,
part_000 140-177) -/

/-- The tracker's `operations` JS `Map`, in insertion order. -/
abbrev TrackerMap := List (String × ProgressEvent)

/-- `Map.set`: overwrite the entry with the given key, or append a new one. -/
def mapSet (m : TrackerMap) (k : String) (v : ProgressEvent) : TrackerMap :=
  if m.any (fun p => p.1 == k) then
    m.map (fun p => if p.1 == k then (k, v) else p)
  else m ++ [(k, v)]

/-- `Map.get`: the value stored at a key. -/
def mapLookup (m : TrackerMap) (k : String) : Option ProgressEvent :=
  (m.find? (fun p => p.1 == k)).map (fun p => p.2)

/-- `Array.from(this.operations.values())`. -/
def trackerValues (m : TrackerMap) : List ProgressEvent :=
  m.map (fun p => p.2)

/-- `allOperations.reduce((sum, op) => sum + op.percent, 0) /
allOperations.length` (part_000 155): `none` models the JS `NaN` produced
by `0 / 0` on an empty tracker. -/
def totalPercentRaw (ops : List ProgressEvent) : Option ℚ :=
  if ops.length = 0 then none
  else some ((ops.map (fun e => e.percent)).sum / (ops.length : ℚ))

/-- `totalPercent || 0` (part_000 161): `NaN` collapses to 0; a numeric
value passes through (`0 || 0` is still 0). -/
def jsOrZero : Option ℚ → ℚ
  | none => 0
  | some v => v

/-- The `totalPercent` field the tracker reports to its callbacks. -/
def aggregateTotalPercent (m : TrackerMap) : ℚ :=
  jsOrZero (totalPercentRaw (trackerValues m))

/-- Modelled from the spec's words (for comparison): the unweighted
arithmetic mean of a list of percents. -/
def arithMean (l : List ℚ) : ℚ :=
  l.sum / (l.length : ℚ)

/-! ## Concrete inputs used by witnesses and counterexamples -/

/-- A trim request with a negative start time. -/
def exBadTrim : TrimOptions := ⟨some "clip.mp4", -1, 5, some "seg1"⟩

/-- A file system holding one input file. -/
def exFs : FS := [("in.mp4", "DATA")]

/-- A one-element segment list over that file. -/
def exSingleSegment : Segment := ⟨"in.mp4", 10⟩

/-! ## Theorems for claim C1 -/

theorem clampPercent_nonneg (r : Option ℚ) : 0 ≤ clampPercent r :=
  le_max_left 0 _

theorem clampPercent_le_100 (r : Option ℚ) : clampPercent r ≤ 100 :=
  max_le (by norm_num) (min_le_left _ _)

/-- Claim C1 (counterexample): the emitted percent stream is not
non-decreasing: when the engine reports 50 and then 30, `executeCommand`
emits 50 and then 30 — nothing retains the previously emitted value. -/
theorem progress_percent_regression_cex :
    processingPercents (executeCommandEvents regressingRun) = [50, 30] ∧
    nonDecreasingB (processingPercents (executeCommandEvents regressingRun)) = false := by
  constructor <;> decide

/-- Claim C1 (amended): every `processing` event of the stream emitted for
an engine run has percent clamped into [0,100], and the stream contains
exactly one terminal stage; however (unlike the original claim) the percent
values may regress, since the handler never retains the last-emitted value. -/
theorem progress_stream_clamped_single_terminal (run : EngineRun) :
    percentsInRange (executeCommandEvents run) = true ∧
    countTerminal (executeCommandEvents run) = 1 := by
  constructor
  · simp only [percentsInRange, executeCommandEvents, List.all_cons, List.all_append,
      Bool.and_eq_true, List.all_eq_true]
    refine ⟨⟨by decide, ?_⟩, ?_⟩
    · intro e he
      simp only [List.mem_map] at he
      obtain ⟨r, _, rfl⟩ := he
      simp only [percentOk, Bool.or_eq_true, Bool.and_eq_true, decide_eq_true_eq]
      exact Or.inr ⟨clampPercent_nonneg r, clampPercent_le_100 r⟩
    · cases run.success <;> decide
  · cases hs : run.success <;>
      simp [countTerminal, executeCommandEvents, hs, List.countP_cons, List.countP_append,
        isTerminal, List.countP_eq_zero]

/-! ## Theorems for claims C2, C3, C6 -/

theorem getD_map_range {α : Type} (f : ℕ → α) (n i : ℕ) (d : α) (h : i < n) :
    ((List.range n).map f).getD i d = f i := by
  rw [List.getD_eq_getElem?_getD, List.getElem?_map, List.getElem?_range h]
  rfl

/-- Claim C2 (counterexample): on three segments of durations 10, 20, 30
with two transitions of duration 1, the built chain has 2 crossfade nodes,
not N - 2 = 1, and the second crossfade's offset is 19 (segment 1's own
duration 20 minus 1), not the cumulative 10 + 20 - 1 = 29 the claim states. -/
theorem crossfade_chain_count_offset_cex :
    (xfadeChain exSegments exTransitions).length ≠ exSegments.length - 2 ∧
    ((xfadeChain exSegments exTransitions).getD 1 dummyXfade).offset = 19 ∧
    specCumulativeOffset exSegments exTransitions 1 = 29 := by
  refine ⟨by decide, ?_, ?_⟩
  · rw [xfadeChain, getD_map_range _ _ _ _ (by decide : 1 < exSegments.length - 1)]
    norm_num [videoNodeAt, segDurationAt, transDuration, exSegments, exTransitions, dummySegment]
  · norm_num [specCumulativeOffset, exSegments, exTransitions, transDuration]

/-- Claim C2 (amended): for N ≥ 2 segments with exactly N - 1 transitions,
the graph is a chain of N - 1 crossfade nodes (one per adjacent pair); the
i-th crossfade's offset is segment i's own duration minus the transition's
overlap duration (not a cumulative sum); its right input is input i+1's
video stream; each node's output label feeds the next node's left input in
left-to-right order; and the full graph is this video chain followed by the
matching audio chain. -/
theorem crossfade_chain_structure (segments : List Segment) (transitions : List Transition)
    (h2 : 2 ≤ segments.length) (ht : transitions.length = segments.length - 1) :
    (xfadeChain segments transitions).length = segments.length - 1 ∧
    (∀ i, i < segments.length - 1 →
      ((xfadeChain segments transitions).getD i dummyXfade).offset =
        segDurationAt segments i - transDuration transitions i) ∧
    (∀ i, i < segments.length - 1 →
      ((xfadeChain segments transitions).getD i dummyXfade).rightLabel =
        toString (i + 1) ++ ":v") ∧
    (∀ i, i + 1 < segments.length - 1 →
      ((xfadeChain segments transitions).getD (i + 1) dummyXfade).leftLabel =
        ((xfadeChain segments transitions).getD i dummyXfade).outLabel) ∧
    (buildMergeFilter segments transitions).nodes =
      (xfadeChain segments transitions).map FilterNode.video ++
        (acrossfadeChain segments transitions).map FilterNode.audio := by
  have hne : transitions.length ≠ 0 := by omega
  refine ⟨?_, ?_, ?_, ?_, ?_⟩
  · simp [xfadeChain]
  · intro i hi
    rw [xfadeChain, getD_map_range _ _ _ _ hi]
    rfl
  · intro i hi
    rw [xfadeChain, getD_map_range _ _ _ _ hi]
    rfl
  · intro i hi
    rw [xfadeChain, getD_map_range _ _ _ _ hi, getD_map_range _ _ _ _ (by omega : i < segments.length - 1)]
    simp [videoNodeAt]
  · simp [buildMergeFilter, hne]

/-- Witness for `crossfade_chain_structure` at the concrete three-segment,
two-transition input. -/
theorem crossfade_chain_structure_witness :
    (2 ≤ exSegments.length ∧ exTransitions.length = exSegments.length - 1) ∧
    (xfadeChain exSegments exTransitions).length = exSegments.length - 1 :=
  ⟨⟨by decide, by decide⟩,
   (crossfade_chain_structure exSegments exTransitions (by decide) (by decide)).1⟩

/-- Claim C3 (counterexample): with three segments and a single (mismatched,
non-empty) transition of duration 2, `buildMergeFilter` raises no error at
all: it returns a complete two-crossfade graph in which the missing second
transition has been silently given the default duration 1. -/
theorem mismatched_transitions_no_error_cex :
    buildMergeFilter exSegments exShortTransitions =
      ⟨[FilterNode.video ⟨"0:v", "1:v", 2, 8, "v0"⟩,
        FilterNode.video ⟨"v0", "2:v", 1, 19, "v1"⟩,
        FilterNode.audio ⟨"0:a", "1:a", 2, "a0"⟩,
        FilterNode.audio ⟨"a0", "2:a", 1, "a1"⟩],
       ["v1", "a1"]⟩ ∧
    ((xfadeChain exSegments exShortTransitions).getD 1 dummyXfade).duration = 1 := by
  constructor
  · norm_num [buildMergeFilter, xfadeChain, acrossfadeChain, videoNodeAt, audioNodeAt,
      exSegments, exShortTransitions, transDuration, segDurationAt, dummySegment,
      List.range_succ]
    decide
  · rw [xfadeChain, getD_map_range _ _ _ _ (by decide : 1 < exSegments.length - 1)]
    norm_num [videoNodeAt, transDuration, exShortTransitions]

/-- Claim C3 (amended): for N ≥ 2 segments and a non-empty transitions list
whose length differs from N - 1, `buildMergeFilter` does not produce a
CompositionError (it has no error path): it still builds the full
2·(N - 1)-node crossfade graph, silently substituting the default duration 1
for every missing transition, and silently ignoring every extra one. -/
theorem mismatched_transitions_silent_default (segments : List Segment)
    (transitions : List Transition) (h2 : 2 ≤ segments.length)
    (hne : transitions ≠ []) (hmm : transitions.length ≠ segments.length - 1) :
    (buildMergeFilter segments transitions).nodes.length = 2 * (segments.length - 1) ∧
    (∀ i, transitions.length ≤ i → i < segments.length - 1 →
      ((xfadeChain segments transitions).getD i dummyXfade).duration = 1) := by
  have hlen : transitions.length ≠ 0 := fun h => hne (List.length_eq_zero.mp h)
  constructor
  · simp [buildMergeFilter, hlen, xfadeChain, acrossfadeChain]
    ring
  · intro i hle hlt
    rw [xfadeChain, getD_map_range _ _ _ _ hlt]
    simp [videoNodeAt, transDuration, List.getElem?_eq_none_iff.mpr hle]

/-- Witness for `mismatched_transitions_silent_default` at the concrete
three-segment, one-transition input. -/
theorem mismatched_transitions_silent_default_witness :
    (2 ≤ exSegments.length ∧ exShortTransitions ≠ [] ∧
      exShortTransitions.length ≠ exSegments.length - 1) ∧
    (buildMergeFilter exSegments exShortTransitions).nodes.length =
      2 * (exSegments.length - 1) :=
  ⟨⟨by decide, by decide, by decide⟩,
   (mismatched_transitions_silent_default exSegments exShortTransitions
      (by decide) (by decide) (by decide)).1⟩

/-- Claim C6: for any list of segments with an empty transitions list, the
built graph is exactly one concat node whose input pairs are every input
index in order (pair `i` references input `i`'s video and audio streams),
with `n` equal to the number of segments, `v=1`, `a=1` and output labels
`[outv][outa]`. -/
theorem concat_filter_structure (segments : List Segment) (h2 : 2 ≤ segments.length) :
    ∃ pairs n,
      buildMergeFilter segments [] =
        ⟨[FilterNode.concat pairs n 1 1 ["outv", "outa"]], []⟩ ∧
      pairs.length = segments.length ∧
      (∀ i, i < segments.length → pairs.getD i 0 = i) ∧
      n = segments.length := by
  refine ⟨List.range segments.length, segments.length, ?_, by simp, ?_, rfl⟩
  · simp [buildMergeFilter]
  · intro i hi
    simp [List.getD_eq_getElem?_getD, List.getElem?_range hi]

/-- Witness for `concat_filter_structure` at the concrete three-segment input. -/
theorem concat_filter_structure_witness :
    2 ≤ exSegments.length ∧
    ∃ pairs n,
      buildMergeFilter exSegments [] =
        ⟨[FilterNode.concat pairs n 1 1 ["outv", "outa"]], []⟩ ∧
      pairs.length = exSegments.length ∧
      (∀ i, i < exSegments.length → pairs.getD i 0 = i) ∧
      n = exSegments.length :=
  ⟨by decide, concat_filter_structure exSegments (by decide)⟩

/-! ## Theorems for claim C4 -/

/-- Claim C4 (counterexample): resolving the name "unknown" does not yield
a ValidationError anywhere: in the video path `getOutputSettings` fails
with a runtime TypeError (reading `.preset` of `undefined`), and in the
audio-extraction path the unknown name is silently substituted by the
medium settings (192k / 44100). -/
theorem unknown_quality_no_validation_error_cex :
    getOutputSettings ⟨some "unknown", none, none⟩ =
      Except.error "TypeError: Cannot read properties of undefined" ∧
    audioSettings "unknown" = none ∧
    resolvedAudioSettings "unknown" = ("192k", "44100") :=
  ⟨rfl, rfl, rfl⟩

/-- Claim C4 (amended): resolving "ultra" yields exactly
`{crf: 18, preset: "slow", bitrate: "12M"}`.  A name outside the closed
preset set resolves to no preset at all; the video settings path then
throws a runtime TypeError rather than returning a ValidationError, and
the audio-extraction quality map silently falls back to its medium
preset. -/
theorem quality_preset_resolution :
    getQualityPresets "ultra" = some (QualityPreset.encode 18 "slow" "12M") ∧
    getQualityPresets "unknown" = none ∧
    (∃ msg, getOutputSettings ⟨some "unknown", none, none⟩ = Except.error msg) ∧
    resolvedAudioSettings "unknown" = resolvedAudioSettings "medium" :=
  ⟨rfl, rfl, ⟨_, rfl⟩, rfl⟩

/-! ## Theorems for claim C5 -/

/-- Claim C5: a trim request with a negative start time or with
`endTime <= startTime` is rejected synchronously by `processMedia.trim`;
the IPC invoke that would spawn the ffmpeg subprocess is never reached. -/
theorem invalid_trim_rejected_no_spawn (o : TrimOptions)
    (h : o.startTime < 0 ∨ o.endTime ≤ o.startTime) :
    spawnsProcess (processMediaTrim o) = false ∧
    ∃ msg, processMediaTrim o = TrimOutcome.rejected msg := by
  have hlen : 0 < (validateTrimOptions o).length := by
    unfold validateTrimOptions
    rcases h with h | h
    · rw [if_pos h]
      simp only [List.length_append, List.length_cons, List.length_nil]
      omega
    · rw [if_pos h]
      simp only [List.length_append, List.length_cons, List.length_nil]
      omega
  have hie : (validateTrimOptions o).isEmpty = false :=
    List.isEmpty_eq_false.mpr (List.length_pos.mp hlen)
  refine ⟨?_, ⟨"Validation failed: " ++ String.intercalate ", " (validateTrimOptions o), ?_⟩⟩
  · simp [processMediaTrim, hie, spawnsProcess]
  · simp [processMediaTrim, hie]

/-- Witness for `invalid_trim_rejected_no_spawn` on a concrete request with
startTime = -1. -/
theorem invalid_trim_rejected_no_spawn_witness :
    exBadTrim.startTime < 0 ∧ spawnsProcess (processMediaTrim exBadTrim) = false :=
  ⟨by norm_num [exBadTrim],
   (invalid_trim_rejected_no_spawn exBadTrim (Or.inl (by norm_num [exBadTrim]))).1⟩

/-! ## Theorems for claims C7 and C10 -/

theorem fsLookup_filter_self (fs : FS) (p : String) :
    fsLookup (fs.filter (fun e => e.1 != p)) p = none := by
  induction fs with
  | nil => rfl
  | cons hd t ih =>
    by_cases hh : hd.1 = p
    · simp [List.filter_cons, hh, ih]
    · have hb : (hd.1 != p) = true := by simp [hh]
      simp [List.filter_cons, hb, fsLookup, hh, ih]

/-- Claim C7: a merge request with exactly one segment takes the
single-copy path — no filter graph is built and no re-encode happens —
and, provided the input file exists, the copy succeeds, resolves
`{success: true, outputPath}`, and the output path holds the input's
content. -/
theorem single_segment_copy_success (seg : Segment) (segments : List Segment)
    (transitions : List Transition) (outputPath : String) (fs : FS) (c : String)
    (hseg : segments = [seg]) (hfile : fsLookup fs seg.path = some c) :
    mergePlan segments transitions outputPath = MergePlan.singleCopy seg.path outputPath ∧
    (handleSingleSegment fs seg.path outputPath).2 = Except.ok ⟨true, outputPath⟩ ∧
    (seg.path ≠ outputPath →
      fsLookup (handleSingleSegment fs seg.path outputPath).1 outputPath = some c) := by
  subst hseg
  refine ⟨by simp [mergePlan], by simp [handleSingleSegment, hfile], ?_⟩
  intro hne
  have hb : (outputPath != seg.path) = true := by simp [Ne.symm hne]
  simp [handleSingleSegment, hfile, fsRemove, fsSet, List.filter_cons, hb, fsLookup]

/-- Witness for `single_segment_copy_success` on a concrete one-file
file system. -/
theorem single_segment_copy_success_witness :
    fsLookup exFs exSingleSegment.path = some "DATA" ∧
    mergePlan [exSingleSegment] [] "out.mp4" =
      MergePlan.singleCopy exSingleSegment.path "out.mp4" :=
  ⟨by decide,
   (single_segment_copy_success exSingleSegment [exSingleSegment] [] "out.mp4"
      exFs "DATA" rfl (by decide)).1⟩

/-- Claim C10: a successful single-segment merge consumes its input: after
`handleSingleSegment` resolves successfully, the file at the input path no
longer exists (it was copied to the output path and then unlinked). -/
theorem single_segment_consumes_input (fs : FS) (inputPath outputPath c : String)
    (h : fsLookup fs inputPath = some c) :
    (handleSingleSegment fs inputPath outputPath).2 = Except.ok ⟨true, outputPath⟩ ∧
    fsLookup (handleSingleSegment fs inputPath outputPath).1 inputPath = none := by
  refine ⟨by simp [handleSingleSegment, h], ?_⟩
  simp only [handleSingleSegment, h, fsRemove]
  exact fsLookup_filter_self _ _

/-- Witness for `single_segment_consumes_input` on the same concrete
file system. -/
theorem single_segment_consumes_input_witness :
    fsLookup exFs "in.mp4" = some "DATA" ∧
    fsLookup (handleSingleSegment exFs "in.mp4" "out.mp4").1 "in.mp4" = none :=
  ⟨by decide,
   (single_segment_consumes_input exFs "in.mp4" "out.mp4" "DATA" (by decide)).2⟩

/-! ## Theorems for claim C8 -/

/-- Claim C8 (counterexample): with bitrate 8 Mbps and duration 300
minutes, the estimator's `gb` field is "17.58" (18000 MB / 1024), not a
value in the "1.76" region as the claim states. -/
theorem estimate_size_gb_cex :
    (estimateFileSize 300 8).gb = "17.58" ∧ ("17.58" : String) ≠ "1.76" := by
  refine ⟨?_, by decide⟩
  simp only [estimateFileSize, toFixed2, jsRound]
  norm_num
  decide

/-- Claim C8 (amended): with bitrate 8 and duration 10 the estimator
returns `mb = 600` and formatted "600 MB" (600 < 1024, as claimed); with
duration 300 it returns 18000 MB, `gb = "17.58"`, and the GB-suffixed
formatted string "17.58 GB" (not the "1.76" region). -/
theorem estimate_size_values :
    estimateFileSize 10 8 = ⟨600, "0.59", "600 MB"⟩ ∧
    estimateFileSize 300 8 = ⟨18000, "17.58", "17.58 GB"⟩ := by
  constructor
  · simp only [estimateFileSize, toFixed2, jsRound]
    norm_num
    exact ⟨by decide, by decide⟩
  · simp only [estimateFileSize, toFixed2, jsRound]
    norm_num
    exact ⟨by decide, by decide⟩

/-! ## Theorems for claim C9 -/

theorem find?_map_update (k : String) (e : ProgressEvent) :
    ∀ m : TrackerMap, m.any (fun p => p.1 == k) = true →
      List.find? (fun p => p.1 == k)
        (m.map (fun p => if p.1 == k then (k, e) else p)) = some (k, e) := by
  intro m
  induction m with
  | nil => intro h; simp at h
  | cons hd t ih =>
    intro h
    by_cases hh : hd.1 = k
    · simp [List.find?_cons, hh]
    · have hb : (hd.1 == k) = false := by simp [hh]
      have ht : t.any (fun p => p.1 == k) = true := by
        simpa [List.any_cons, hb] using h
      rw [List.map_cons, if_neg (show ¬ ((hd.1 == k) = true) by simp [hb])]
      simp only [List.find?_cons, hb]
      exact ih ht

theorem mapLookup_mapSet (m : TrackerMap) (k : String) (e : ProgressEvent) :
    mapLookup (mapSet m k e) k = some e := by
  unfold mapSet mapLookup
  by_cases h : m.any (fun p => p.1 == k) = true
  · rw [if_pos h, find?_map_update k e m h]
    rfl
  · rw [if_neg h]
    have hnone : List.find? (fun p => p.1 == k) m = none := by
      rw [List.find?_eq_none]
      intro x hx hpx
      exact h (List.any_eq_true.mpr ⟨x, hx, hpx⟩)
    simp [List.find?_append, hnone, List.find?_cons]

/-- Claim C9: the tracker's `totalPercent` is the unweighted arithmetic
mean of the latest percent of every tracked operation (a `Map.set`
overwrites the stored event for its key, so only the latest event counts),
and with zero tracked operations it is 0: the JS `NaN` from `0 / 0` is
collapsed to 0 by `totalPercent || 0`. -/
theorem aggregate_percent_mean (m : TrackerMap) (k : String) (e : ProgressEvent) :
    aggregateTotalPercent m =
      (if trackerValues m = [] then 0
       else arithMean ((trackerValues m).map (fun ev => ev.percent))) ∧
    mapLookup (mapSet m k e) k = some e := by
  refine ⟨?_, mapLookup_mapSet m k e⟩
  cases m with
  | nil => simp [aggregateTotalPercent, totalPercentRaw, trackerValues, jsOrZero]
  | cons hd t =>
    simp [aggregateTotalPercent, totalPercentRaw, trackerValues, jsOrZero, arithMean,
      List.length_map]
